import Mathlib

/-!
Verification of the shot-generation pipeline in `src/video_generator.py`.

The development shallowly embeds the pieces of the scheduler that the
specification talks about:

* the module constants (`MAX_RETRIES`, `RETRY_BACKOFF_SECONDS`,
  `MIN_VALID_BYTES`, `FRAME_OFFSET_SECONDS`);
* `extract_last_frame` (continuity extraction, lines 82-97), modelled as the
  pure timestamp/frame-count computation performed by the ffprobe/ffmpeg calls;
* the error classification of the `except` branch (lines 276-285), which
  distinguishes rate-limit errors by searching the exception message for the
  markers `"429"` / `"RESOURCE_EXHAUSTED"`;
* the per-shot retry loop (lines 255-289), as a function from the sequence of
  per-attempt generation outcomes to the loop's observable behaviour (success,
  sleeps performed, generation calls made, file left at the shot's path);
* the per-shot iteration of `process_story` (lines 227-293): skip when the
  artifact exists, mode resolution with I2V-to-T2V downgrade (lines 235-249),
  the retry loop, and the `sys.exit(1)` chain halt (lines 287-289).

The filesystem is modelled as a map from shot id to the size of the artifact
`{id}.mp4` in the run's output directory (`Int → Option Nat`); generation
outcomes are supplied as an oracle `Int → Nat → GenOutcome` (shot id and
1-based attempt number to what the generation client did on that attempt).
Prompt construction and the reference-image payloads only affect the contents
of requests, not the control flow the claims are about, so they are not
modelled; the *shape* of each request (text-anchored vs image-anchored) is
recorded in the run log.
-/

/-- Constant `MAX_RETRIES` from `video_generator.py` line 76. -/
def MAX_RETRIES : Nat := 3

/-- Constant `RETRY_BACKOFF_SECONDS` from `video_generator.py` line 77. -/
def RETRY_BACKOFF_SECONDS : Nat := 60

/-- Constant `MIN_VALID_BYTES = 1 * 1024 * 1024` from `video_generator.py` line 78. -/
def MIN_VALID_BYTES : Nat := 1 * 1024 * 1024

/-- Constant `FRAME_OFFSET_SECONDS = 1.0` from `video_generator.py` line 79. -/
def FRAME_OFFSET_SECONDS : Rat := 1

/-- The mode string `"t2v"` (text-anchored / text-to-video). -/
def t2v : String := "t2v"

/-- The mode string `"i2v"` (image-anchored / image-to-video). -/
def i2v : String := "i2v"

/-- Result of `extract_last_frame`'s media commands: the single decode request
issued to ffmpeg — which timestamp to seek to and how many frames to decode
(`-frames:v 1`). -/
structure FrameRequest where
  timestamp : Rat
  frames : Nat
deriving DecidableEq

/-- Function `extract_last_frame` (lines 82-97): query the duration, compute
`timestamp = max(0, duration - offset_from_end)`, and decode exactly one
frame at that timestamp. In the source `offset_from_end` defaults to
`FRAME_OFFSET_SECONDS`. -/
def extract_last_frame (duration : Rat) (offset_from_end : Rat) : FrameRequest :=
  { timestamp := max 0 (duration - offset_from_end), frames := 1 }

/-- Rate-limit error marker `"429"` (line 278). -/
def rlMarker1 : String := "429"

/-- Rate-limit error marker `"RESOURCE_EXHAUSTED"` (line 278). -/
def rlMarker2 : String := "RESOURCE_EXHAUSTED"

/-- Whether `needle` occurs as a contiguous substring of `haystack` (Python's
`needle in haystack` on strings). -/
def containsSub (needle : List Char) : List Char → Bool
  | [] => needle.isPrefixOf []
  | c :: rest => needle.isPrefixOf (c :: rest) || containsSub needle rest

/-- Line 278: `if "429" in error_msg or "RESOURCE_EXHAUSTED" in error_msg`. -/
def isRateLimitMsg (msg : String) : Bool :=
  containsSub rlMarker1.toList msg.toList || containsSub rlMarker2.toList msg.toList

/-- The `ValueError` message raised by the validation check (line 272), an
f-string interpolating the observed size. -/
def validationMsg (size : Nat) : String :=
  "Output too small (" ++ toString size ++ " bytes) — likely a failed generation"

/-- What the generation client did on one attempt: either the downloaded video
was saved to the shot's path with the given size (`genOk`), or an exception
with the given message was raised before a file was persisted (`genRaise`). -/
inductive GenOutcome where
  | genOk (size : Nat)
  | genRaise (msg : String)
deriving DecidableEq

/-- The error message the `except` block sees for an attempt, if any: a raised
exception's own message, or the validation `ValueError` for an undersized save
(lines 270-272; the undersized file is unlinked before the raise). `none`
means the attempt succeeded with a valid artifact. -/
def attemptError : GenOutcome → Option String
  | GenOutcome.genOk size =>
      if size < MIN_VALID_BYTES then some (validationMsg size) else none
  | GenOutcome.genRaise msg => some msg

/-- The file left at the shot's path by one attempt: the saved artifact when it
passes validation, nothing otherwise (an undersized save is `unlink`ed at line
271, and a raised exception happens before any save). -/
def attemptFile : GenOutcome → Option Nat
  | GenOutcome.genOk size =>
      if size < MIN_VALID_BYTES then none else some size
  | GenOutcome.genRaise _ => none

/-- An attempt counts as a failure when the `except` block runs for it. -/
def isFailure (o : GenOutcome) : Bool :=
  (attemptError o).isSome

/-- The `except` branch (lines 276-285): the sleep performed after a failed
attempt, if any. Rate-limited errors sleep `RETRY_BACKOFF_SECONDS * attempt`
(line 279) on every attempt including the last; other errors sleep the fixed
`RETRY_BACKOFF_SECONDS` only when `attempt < MAX_RETRIES` (lines 284-285). -/
def handleError (attempt : Nat) (msg : String) : Option Nat :=
  if isRateLimitMsg msg then some (RETRY_BACKOFF_SECONDS * attempt)
  else if attempt < MAX_RETRIES then some RETRY_BACKOFF_SECONDS
  else none

/-- Observable behaviour of the per-shot retry loop: whether some attempt
succeeded, the sleeps performed (attempt number and duration, in order), the
artifact left at the shot's path, and how many generation calls were made. -/
structure LoopResult where
  success : Bool
  sleeps : List (Nat × Nat)
  file : Option Nat
  genCalls : Nat
deriving DecidableEq

/-- The body of `for attempt in range(1, MAX_RETRIES + 1)` (lines 256-285),
recursing over the remaining attempt numbers and accumulating the sleeps (in
reverse) and the count of generation calls. A valid attempt breaks out of the
loop with `success = True`; a failed attempt performs its backoff sleep (if
any) and continues. -/
def retryGo (outcomes : Nat → GenOutcome) :
    List Nat → List (Nat × Nat) → Nat → LoopResult
  | [], sleeps, calls =>
      { success := false, sleeps := sleeps.reverse, file := none, genCalls := calls }
  | a :: rest, sleeps, calls =>
      match attemptError (outcomes a) with
      | none =>
          { success := true, sleeps := sleeps.reverse,
            file := attemptFile (outcomes a), genCalls := calls + 1 }
      | some msg =>
          match handleError a msg with
          | none => retryGo outcomes rest sleeps (calls + 1)
          | some d => retryGo outcomes rest ((a, d) :: sleeps) (calls + 1)

/-- The attempt numbers iterated by the loop: `range(1, MAX_RETRIES + 1)`. -/
def attemptNumbers : List Nat := List.range' 1 MAX_RETRIES

/-- The whole retry loop for one shot (lines 255-285), given the outcome of
each attempt. -/
def retryLoop (outcomes : Nat → GenOutcome) : LoopResult :=
  retryGo outcomes attemptNumbers [] 0

/-- One shot of a story: its stable integer `id` and the optional `mode` field
of its YAML entry. The `description` field only feeds prompt text and is not
modelled. -/
structure Shot where
  id : Int
  mode : Option String
deriving DecidableEq

/-- Line 235: `shot.get("mode", "t2v" if shot_id == 1 else "i2v")` — the
declared mode, with the implicit default. -/
def resolveDeclaredMode (shot : Shot) : String :=
  shot.mode.getD (if shot.id = 1 then t2v else i2v)

/-- Lines 235-249: the effective mode for this run. A shot whose declared mode
is `"i2v"` is downgraded to `"t2v"` when the predecessor artifact
`{shot_id - 1}.mp4` is absent, or when frame extraction from it raises
(`extractOk` is the oracle for whether `extract_last_frame` succeeds on the
predecessor). Any other declared mode is used as is. -/
def resolveMode (fs : Int → Option Nat) (extractOk : Int → Bool) (shot : Shot) :
    String :=
  if resolveDeclaredMode shot = i2v then
    if (fs (shot.id - 1)).isSome then
      if extractOk (shot.id - 1) then i2v else t2v
    else t2v
  else resolveDeclaredMode shot

/-- Terminal status of one shot in the run log. `generated` records the mode
string of the request actually sent to the generation client (`"i2v"` means
the image-anchored shape, anything else the text-anchored shape) and the size
of the persisted artifact. -/
inductive ShotStatus where
  | skipped
  | generated (mode : String) (size : Nat)
  | failed
deriving DecidableEq

/-- Run state threaded through the shot loop: the filesystem (size of
`{id}.mp4` if present), the log of settled shots in order, the total number of
generation calls made, and `haltedAt = some id` once `sys.exit(1)` fired for
shot `id`. -/
structure RunState where
  fs : Int → Option Nat
  log : List (Int × ShotStatus)
  genCalls : Nat
  haltedAt : Option Int

/-- The `for shot in shots` loop of `process_story` (lines 227-293): skip a
shot whose artifact exists (lines 231-233), otherwise resolve the effective
mode (lines 235-249), run the retry loop, persist on success, and halt the
whole run (`sys.exit(1)`, line 289) on exhaustion. The 5-second inter-shot
pacing sleep (line 292) has no effect on any state modelled here. -/
def processShots (outcomes : Int → Nat → GenOutcome) (extractOk : Int → Bool) :
    List Shot → RunState → RunState
  | [], st => st
  | shot :: rest, st =>
      if (st.fs shot.id).isSome then
        processShots outcomes extractOk rest
          { st with log := st.log ++ [(shot.id, ShotStatus.skipped)] }
      else
        if (retryLoop (outcomes shot.id)).success then
          processShots outcomes extractOk rest
            { st with
                fs := fun i =>
                  if i = shot.id then (retryLoop (outcomes shot.id)).file else st.fs i,
                log := st.log ++ [(shot.id,
                  ShotStatus.generated (resolveMode st.fs extractOk shot)
                    ((retryLoop (outcomes shot.id)).file.getD 0))],
                genCalls := st.genCalls + (retryLoop (outcomes shot.id)).genCalls }
        else
          { st with
              log := st.log ++ [(shot.id, ShotStatus.failed)],
              genCalls := st.genCalls + (retryLoop (outcomes shot.id)).genCalls,
              haltedAt := some shot.id }

/-- Stable insertion into an id-sorted list (auxiliary for `sortShots`). -/
def insertShot (s : Shot) : List Shot → List Shot
  | [] => [s]
  | t :: ts => if s.id ≤ t.id then s :: t :: ts else t :: insertShot s ts

/-- Python's `sorted(story["shots"], key=lambda s: s["id"])` (line 209): a stable
ascending sort by id, modelled as insertion sort. -/
def sortShots : List Shot → List Shot
  | [] => []
  | s :: rest => insertShot s (sortShots rest)

/-- Lines 209-211: sort the story's shots by id and keep those in the
`[start_shot, end_shot]` range (`end_shot = none` means no upper bound). -/
def shotsInRange (story : List Shot) (start_shot : Int) (end_shot : Option Int) :
    List Shot :=
  (sortShots story).filter fun s =>
    decide (start_shot ≤ s.id) &&
      match end_shot with
      | none => true
      | some e => decide (s.id ≤ e)

/-- Function `process_story` (lines 190-294) restricted to its observable effects:
iterate the in-range shots over the initial filesystem. -/
def processStory (outcomes : Int → Nat → GenOutcome) (extractOk : Int → Bool)
    (story : List Shot) (fs0 : Int → Option Nat)
    (start_shot : Int) (end_shot : Option Int) : RunState :=
  processShots outcomes extractOk (shotsInRange story start_shot end_shot)
    { fs := fs0, log := [], genCalls := 0, haltedAt := none }

/-- A concrete rate-limited error message for examples. -/
def msg429 : String := "429 RESOURCE_EXHAUSTED: quota exceeded"

/-- A concrete non-rate-limited error message for examples. -/
def msgBoom : String := "connection reset by peer"

/-! ## Lemmas about the retry loop -/

/-- The loop's attempt numbers are `[1, 2, 3]`. -/
theorem attemptNumbers_eq : attemptNumbers = [1, 2, 3] := rfl

/-- If every remaining attempt fails, the loop makes one generation call per
remaining attempt, ends unsuccessfully, and leaves no file. -/
theorem retryGo_allFail (outcomes : Nat → GenOutcome) (l : List Nat) :
    ∀ (s : List (Nat × Nat)) (c : Nat),
      (∀ a ∈ l, isFailure (outcomes a) = true) →
      (retryGo outcomes l s c).success = false ∧
        (retryGo outcomes l s c).genCalls = c + l.length ∧
        (retryGo outcomes l s c).file = none := by
  induction l with
  | nil =>
      intro s c _
      simp [retryGo]
  | cons a rest ih =>
      intro s c h
      have ha : (attemptError (outcomes a)).isSome = true :=
        h a (List.mem_cons_self a rest)
      obtain ⟨msg, hmsg⟩ := Option.isSome_iff_exists.mp ha
      have hrest : ∀ b ∈ rest, isFailure (outcomes b) = true :=
        fun b hb => h b (List.mem_cons_of_mem a hb)
      cases hE : handleError a msg with
      | none =>
          have h3 := ih s (c + 1) hrest
          simp only [retryGo, hmsg, hE]
          exact ⟨h3.1, by rw [h3.2.1, List.length_cons]; omega, h3.2.2⟩
      | some d =>
          have h3 := ih ((a, d) :: s) (c + 1) hrest
          simp only [retryGo, hmsg, hE]
          exact ⟨h3.1, by rw [h3.2.1, List.length_cons]; omega, h3.2.2⟩

/-- Any file the loop leaves at the shot's path passed validation. -/
theorem retryGo_file_valid (outcomes : Nat → GenOutcome) (l : List Nat) :
    ∀ (s : List (Nat × Nat)) (c n : Nat),
      (retryGo outcomes l s c).file = some n → MIN_VALID_BYTES ≤ n := by
  induction l with
  | nil =>
      intro s c n h
      simp [retryGo] at h
  | cons a rest ih =>
      intro s c n h
      cases hE : attemptError (outcomes a) with
      | none =>
          simp only [retryGo, hE] at h
          cases ho : outcomes a with
          | genOk size =>
              rw [ho] at hE
              simp only [attemptError] at hE
              rw [ho] at h
              simp only [attemptFile] at h
              by_cases hlt : size < MIN_VALID_BYTES
              · rw [if_pos hlt] at hE
                exact absurd hE (by simp)
              · rw [if_neg hlt] at h
                rw [Option.some_inj] at h
                omega
          | genRaise m =>
              rw [ho] at hE
              simp [attemptError] at hE
      | some msg =>
          simp only [retryGo, hE] at h
          cases hH : handleError a msg with
          | none =>
              rw [hH] at h
              exact ih s (c + 1) n h
          | some d =>
              rw [hH] at h
              exact ih ((a, d) :: s) (c + 1) n h

/-- A successful loop leaves a validated artifact at the shot's path. -/
theorem retryGo_success_file (outcomes : Nat → GenOutcome) (l : List Nat) :
    ∀ (s : List (Nat × Nat)) (c : Nat),
      (retryGo outcomes l s c).success = true →
      ∃ n, (retryGo outcomes l s c).file = some n ∧ MIN_VALID_BYTES ≤ n := by
  induction l with
  | nil =>
      intro s c h
      simp [retryGo] at h
  | cons a rest ih =>
      intro s c h
      cases hE : attemptError (outcomes a) with
      | none =>
          simp only [retryGo, hE] at h ⊢
          cases ho : outcomes a with
          | genOk size =>
              rw [ho] at hE
              simp only [attemptError] at hE
              by_cases hlt : size < MIN_VALID_BYTES
              · rw [if_pos hlt] at hE
                exact absurd hE (by simp)
              · exact ⟨size, by simp [attemptFile, ho, hlt], by omega⟩
          | genRaise m =>
              rw [ho] at hE
              simp [attemptError] at hE
      | some msg =>
          simp only [retryGo, hE] at h ⊢
          cases hH : handleError a msg with
          | none =>
              rw [hH] at h
              exact ih s (c + 1) h
          | some d =>
              rw [hH] at h
              exact ih ((a, d) :: s) (c + 1) h

/-- Version of `retryGo_success_file` for the whole loop. -/
theorem retryLoop_success_file (outcomes : Nat → GenOutcome)
    (h : (retryLoop outcomes).success = true) :
    ∃ n, (retryLoop outcomes).file = some n ∧ MIN_VALID_BYTES ≤ n :=
  retryGo_success_file outcomes attemptNumbers [] 0 h

/-- Version of `retryGo_allFail` for the whole loop: a shot all of whose attempts
fail exhausts exactly the `MAX_RETRIES` budget, regardless of how each failure
is classified. -/
theorem retryLoop_allFail (outcomes : Nat → GenOutcome)
    (hfail : ∀ n, 1 ≤ n → n ≤ MAX_RETRIES → isFailure (outcomes n) = true) :
    (retryLoop outcomes).success = false ∧
      (retryLoop outcomes).genCalls = MAX_RETRIES ∧
      (retryLoop outcomes).file = none := by
  have hall : ∀ a ∈ attemptNumbers, isFailure (outcomes a) = true := by
    intro a ha
    rw [attemptNumbers_eq] at ha
    simp only [List.mem_cons, List.not_mem_nil, or_false] at ha
    rcases ha with h | h | h <;> subst h <;>
      exact hfail _ (by decide) (by decide)
  have h := retryGo_allFail outcomes attemptNumbers [] 0 hall
  refine ⟨h.1, ?_, h.2.2⟩
  rw [retryLoop, h.2.1]
  decide

/-! ## Claims about the retry loop -/

/-- Claim C1, counterexample: three consecutive rate-limited attempts consume
the whole `MAX_RETRIES` budget and reach the fatal (`FAILED`, chain-halting)
path exactly like three transient errors do — the two runs differ only in the
sleeps performed. -/
theorem c1_counterexample :
    (retryLoop fun _ => GenOutcome.genRaise msg429).success = false ∧
      (retryLoop fun _ => GenOutcome.genRaise msg429).genCalls = MAX_RETRIES ∧
      (retryLoop fun _ => GenOutcome.genRaise msg429).sleeps =
        [(1, 60), (2, 120), (3, 180)] ∧
      (retryLoop fun _ => GenOutcome.genRaise msgBoom).success = false ∧
      (retryLoop fun _ => GenOutcome.genRaise msgBoom).genCalls = MAX_RETRIES ∧
      (retryLoop fun _ => GenOutcome.genRaise msgBoom).sleeps = [(1, 60), (2, 60)] := by
  decide

/-- Claim C1 (amended): the scheduler keeps retrying after a `RateLimited`
result only while attempts remain, and rate-limited failures consume the same
`MAX_RETRIES` hard-failure budget as `TransientError`/`EmptyResponse`/
validation failures: any stream of `MAX_RETRIES` consecutive failures —
rate-limited or not — makes exactly `MAX_RETRIES` generation calls, ends
unsuccessfully, and reaches the fatal path. -/
theorem c1_budget_shared (outcomes : Nat → GenOutcome)
    (hfail : ∀ n, 1 ≤ n → n ≤ MAX_RETRIES → isFailure (outcomes n) = true) :
    (retryLoop outcomes).success = false ∧
      (retryLoop outcomes).genCalls = MAX_RETRIES ∧
      (retryLoop outcomes).file = none :=
  retryLoop_allFail outcomes hfail

/-- Claim C1 (amended), witness at a concrete all-rate-limited run. -/
theorem c1_budget_shared_witness :
    (retryLoop fun _ => GenOutcome.genRaise msg429).success = false ∧
      (retryLoop fun _ => GenOutcome.genRaise msg429).genCalls = MAX_RETRIES ∧
      (retryLoop fun _ => GenOutcome.genRaise msg429).file = none :=
  c1_budget_shared (fun _ => GenOutcome.genRaise msg429) (fun _ _ _ => rfl)

/-- Claim C3: an attempt whose persisted size is `MIN_VALID_BYTES - 1` is
deleted and treated as a retryable failure (here the next attempt runs and
succeeds, so the loop makes two generation calls); a result of exactly
`MIN_VALID_BYTES` on the first attempt is persisted and not retried; a run
whose attempts are all undersized leaves no file; and any file the loop leaves
at the shot's path has at least `MIN_VALID_BYTES` bytes. -/
theorem c3_validation_boundary (outcomes : Nat → GenOutcome)
    (h1 : outcomes 1 = GenOutcome.genOk (MIN_VALID_BYTES - 1))
    (h2 : outcomes 2 = GenOutcome.genOk MIN_VALID_BYTES) :
    ((retryLoop outcomes).success = true ∧
        (retryLoop outcomes).genCalls = 2 ∧
        (retryLoop outcomes).file = some MIN_VALID_BYTES) ∧
      (∀ o : Nat → GenOutcome, o 1 = GenOutcome.genOk MIN_VALID_BYTES →
        (retryLoop o).success = true ∧ (retryLoop o).genCalls = 1 ∧
          (retryLoop o).file = some MIN_VALID_BYTES) ∧
      (∀ o : Nat → GenOutcome,
        (∀ n, 1 ≤ n → n ≤ MAX_RETRIES →
          ∃ sz, o n = GenOutcome.genOk sz ∧ sz < MIN_VALID_BYTES) →
        (retryLoop o).success = false ∧ (retryLoop o).file = none) ∧
      (∀ (o : Nat → GenOutcome) (n : Nat),
        (retryLoop o).file = some n → MIN_VALID_BYTES ≤ n) := by
  have e1 : attemptError (GenOutcome.genOk (MIN_VALID_BYTES - 1)) =
      some (validationMsg (MIN_VALID_BYTES - 1)) := by decide
  have e2 : handleError 1 (validationMsg (MIN_VALID_BYTES - 1)) =
      some RETRY_BACKOFF_SECONDS := by decide
  have e3 : attemptError (GenOutcome.genOk MIN_VALID_BYTES) = none := by decide
  have e4 : attemptFile (GenOutcome.genOk MIN_VALID_BYTES) = some MIN_VALID_BYTES := by
    decide
  refine ⟨?_, ?_, ?_, ?_⟩
  · simp [retryLoop, attemptNumbers_eq, retryGo, h1, h2, e1, e2, e3, e4]
  · intro o ho
    simp [retryLoop, attemptNumbers_eq, retryGo, ho, e3, e4]
  · intro o ho
    have hall : ∀ a ∈ attemptNumbers, isFailure (o a) = true := by
      intro a ha
      rw [attemptNumbers_eq] at ha
      simp only [List.mem_cons, List.not_mem_nil, or_false] at ha
      have hb : 1 ≤ a ∧ a ≤ MAX_RETRIES := by
        rcases ha with h | h | h <;> subst h <;> exact ⟨by decide, by decide⟩
      obtain ⟨sz, hsz, hlt⟩ := ho a hb.1 hb.2
      simp [isFailure, attemptError, hsz, hlt]
    have h := retryGo_allFail o attemptNumbers [] 0 hall
    exact ⟨h.1, h.2.2⟩
  · intro o n h
    exact retryGo_file_valid o attemptNumbers [] 0 n h

/-- Claim C3, witness: undersized first attempt, exact-size second attempt. -/
theorem c3_validation_boundary_witness :
    (retryLoop fun n => if n = 1 then GenOutcome.genOk (MIN_VALID_BYTES - 1)
        else GenOutcome.genOk MIN_VALID_BYTES).success = true ∧
      (retryLoop fun n => if n = 1 then GenOutcome.genOk (MIN_VALID_BYTES - 1)
        else GenOutcome.genOk MIN_VALID_BYTES).genCalls = 2 ∧
      (retryLoop fun n => if n = 1 then GenOutcome.genOk (MIN_VALID_BYTES - 1)
        else GenOutcome.genOk MIN_VALID_BYTES).file = some MIN_VALID_BYTES :=
  (c3_validation_boundary
    (fun n => if n = 1 then GenOutcome.genOk (MIN_VALID_BYTES - 1)
      else GenOutcome.genOk MIN_VALID_BYTES) rfl rfl).1

/-- Claim C5: a rate-limited failure on attempt `n` sleeps
`RETRY_BACKOFF_SECONDS * n` seconds, and three consecutive rate-limited
attempts sleep 60 s, 120 s and 180 s in order, after which the loop ends
unsuccessfully (the chain halts). -/
theorem c5_rate_limit_backoff (outcomes : Nat → GenOutcome)
    (h1 : ∃ m, outcomes 1 = GenOutcome.genRaise m ∧ isRateLimitMsg m = true)
    (h2 : ∃ m, outcomes 2 = GenOutcome.genRaise m ∧ isRateLimitMsg m = true)
    (h3 : ∃ m, outcomes 3 = GenOutcome.genRaise m ∧ isRateLimitMsg m = true) :
    (∀ (n : Nat) (msg : String), isRateLimitMsg msg = true →
        handleError n msg = some (RETRY_BACKOFF_SECONDS * n)) ∧
      (retryLoop outcomes).sleeps = [(1, 60), (2, 120), (3, 180)] ∧
      (retryLoop outcomes).success = false := by
  obtain ⟨m1, e1, r1⟩ := h1
  obtain ⟨m2, e2, r2⟩ := h2
  obtain ⟨m3, e3, r3⟩ := h3
  have hH1 : handleError 1 m1 = some 60 := by
    simp [handleError, r1, RETRY_BACKOFF_SECONDS]
  have hH2 : handleError 2 m2 = some 120 := by
    simp [handleError, r2, RETRY_BACKOFF_SECONDS]
  have hH3 : handleError 3 m3 = some 180 := by
    simp [handleError, r3, RETRY_BACKOFF_SECONDS]
  refine ⟨fun n msg h => by simp [handleError, h], ?_, ?_⟩ <;>
    simp [retryLoop, attemptNumbers_eq, retryGo, e1, e2, e3, attemptError,
      hH1, hH2, hH3]

/-- Claim C5, witness at a concrete all-rate-limited run. -/
theorem c5_rate_limit_backoff_witness :
    (retryLoop fun _ => GenOutcome.genRaise msg429).sleeps =
        [(1, 60), (2, 120), (3, 180)] ∧
      (retryLoop fun _ => GenOutcome.genRaise msg429).success = false :=
  (c5_rate_limit_backoff (fun _ => GenOutcome.genRaise msg429)
    ⟨msg429, rfl, by decide⟩ ⟨msg429, rfl, by decide⟩ ⟨msg429, rfl, by decide⟩).2

/-- Claim C10: when the first two attempts fail and the final attempt
(`MAX_RETRIES`) fails too, a rate-limited final error still sleeps
`RETRY_BACKOFF_SECONDS * MAX_RETRIES = 180` seconds before the loop halts,
whereas a non-rate-limited final error halts with no sleep attributed to the
final attempt. -/
theorem c10_final_attempt_asymmetry (outcomes : Nat → GenOutcome)
    (hf1 : isFailure (outcomes 1) = true) (hf2 : isFailure (outcomes 2) = true)
    (msg : String) (h3 : attemptError (outcomes MAX_RETRIES) = some msg) :
    (isRateLimitMsg msg = true →
      (retryLoop outcomes).success = false ∧
        (MAX_RETRIES, RETRY_BACKOFF_SECONDS * MAX_RETRIES) ∈
          (retryLoop outcomes).sleeps ∧
        RETRY_BACKOFF_SECONDS * MAX_RETRIES = 180) ∧
      (isRateLimitMsg msg = false →
        (retryLoop outcomes).success = false ∧
          ∀ d, (MAX_RETRIES, d) ∉ (retryLoop outcomes).sleeps) := by
  simp only [isFailure] at hf1 hf2
  obtain ⟨m1, e1⟩ := Option.isSome_iff_exists.mp hf1
  obtain ⟨m2, e2⟩ := Option.isSome_iff_exists.mp hf2
  rw [show MAX_RETRIES = 3 from rfl] at h3
  constructor
  · intro hRL
    have hH3 : handleError 3 msg = some (RETRY_BACKOFF_SECONDS * MAX_RETRIES) := by
      simp [handleError, hRL, MAX_RETRIES]
    cases hH1 : handleError 1 m1 <;> cases hH2 : handleError 2 m2 <;>
      simp [retryLoop, attemptNumbers_eq, retryGo, e1, e2, h3, hH1, hH2, hH3,
        MAX_RETRIES, RETRY_BACKOFF_SECONDS]
  · intro hNR
    have hH3 : handleError 3 msg = none := by
      simp [handleError, hNR, MAX_RETRIES]
    cases hH1 : handleError 1 m1 <;> cases hH2 : handleError 2 m2 <;>
      simp [retryLoop, attemptNumbers_eq, retryGo, e1, e2, h3, hH1, hH2, hH3,
        MAX_RETRIES]

/-- Claim C10, witness: two transient failures then a rate-limited final
attempt sleeps 180 s before halting. -/
theorem c10_final_attempt_asymmetry_witness :
    (retryLoop fun n => if n = 3 then GenOutcome.genRaise msg429
        else GenOutcome.genRaise msgBoom).success = false ∧
      (MAX_RETRIES, RETRY_BACKOFF_SECONDS * MAX_RETRIES) ∈
        (retryLoop fun n => if n = 3 then GenOutcome.genRaise msg429
          else GenOutcome.genRaise msgBoom).sleeps ∧
      RETRY_BACKOFF_SECONDS * MAX_RETRIES = 180 :=
  (c10_final_attempt_asymmetry
    (fun n => if n = 3 then GenOutcome.genRaise msg429
      else GenOutcome.genRaise msgBoom) rfl rfl msg429 rfl).1 (by decide)

/-! ## Lemmas about the shot loop -/

/-- The shot loop never removes an artifact: anything present in the
filesystem stays present. -/
theorem processShots_fs_mono (outcomes : Int → Nat → GenOutcome)
    (extractOk : Int → Bool) (l : List Shot) :
    ∀ (st : RunState) (i : Int), (st.fs i).isSome = true →
      ((processShots outcomes extractOk l st).fs i).isSome = true := by
  induction l with
  | nil =>
      intro st i h
      exact h
  | cons shot rest ih =>
      intro st i h
      rw [processShots]
      by_cases hex : (st.fs shot.id).isSome = true
      · rw [if_pos hex]
        exact ih _ i h
      · rw [if_neg hex]
        by_cases hsucc : (retryLoop (outcomes shot.id)).success = true
        · rw [if_pos hsucc]
          apply ih
          by_cases hi : i = shot.id
          · subst hi
            obtain ⟨n, hn, -⟩ := retryLoop_success_file (outcomes shot.id) hsucc
            simp [hn]
          · simpa [hi] using h
        · rw [if_neg hsucc]
          exact h

/-- If the shot loop finishes without halting, every listed shot's artifact is
present in the final filesystem. -/
theorem processShots_complete_exists (outcomes : Int → Nat → GenOutcome)
    (extractOk : Int → Bool) (l : List Shot) :
    ∀ st, (processShots outcomes extractOk l st).haltedAt = none →
      ∀ s ∈ l, ((processShots outcomes extractOk l st).fs s.id).isSome = true := by
  induction l with
  | nil =>
      intro st _ s hs
      exact absurd hs (List.not_mem_nil s)
  | cons shot rest ih =>
      intro st hhalt s hs
      rw [processShots] at hhalt ⊢
      by_cases hex : (st.fs shot.id).isSome = true
      · rw [if_pos hex] at hhalt ⊢
        rcases List.mem_cons.mp hs with h | h
        · subst h
          exact processShots_fs_mono outcomes extractOk rest _ _ hex
        · exact ih _ hhalt s h
      · rw [if_neg hex] at hhalt ⊢
        by_cases hsucc : (retryLoop (outcomes shot.id)).success = true
        · rw [if_pos hsucc] at hhalt ⊢
          rcases List.mem_cons.mp hs with h | h
          · subst h
            refine processShots_fs_mono outcomes extractOk rest _ _ ?_
            obtain ⟨n, hn, -⟩ := retryLoop_success_file _ hsucc
            simp [hn]
          · exact ih _ hhalt s h
        · rw [if_neg hsucc] at hhalt
          simp at hhalt

/-- If every listed shot's artifact already exists, the loop only appends
`skipped` entries to the log and changes nothing else — in particular it makes
no generation call. -/
theorem processShots_all_skip (outcomes : Int → Nat → GenOutcome)
    (extractOk : Int → Bool) (l : List Shot) :
    ∀ st, (∀ s ∈ l, (st.fs s.id).isSome = true) →
      processShots outcomes extractOk l st =
        { st with log := st.log ++ l.map fun s => (s.id, ShotStatus.skipped) } := by
  induction l with
  | nil =>
      intro st _
      simp [processShots]
  | cons shot rest ih =>
      intro st h
      rw [processShots, if_pos (h shot (List.mem_cons_self shot rest))]
      rw [ih { st with log := st.log ++ [(shot.id, ShotStatus.skipped)] }
        fun s hs => h s (List.mem_cons_of_mem shot hs)]
      simp [List.append_assoc]

/-! ## Claims about the shot loop -/

/-- Claim C2: a shot whose artifact already exists is settled as `skipped`
without contacting the generation client; consequently, if a first run over a
story completes without halting, a second run over the same story, range and
output directory — whatever the generation service would do — makes zero
generation calls and settles every shot as `skipped`. -/
theorem c2_idempotent_resume
    (o1 o2 : Int → Nat → GenOutcome) (e1 e2 : Int → Bool)
    (story : List Shot) (fs0 : Int → Option Nat) (ss : Int) (es : Option Int)
    (h : (processStory o1 e1 story fs0 ss es).haltedAt = none) :
    (∀ (st : RunState) (s : Shot) (rest : List Shot),
        (st.fs s.id).isSome = true →
        processShots o2 e2 (s :: rest) st =
          processShots o2 e2 rest
            { st with log := st.log ++ [(s.id, ShotStatus.skipped)] }) ∧
      (processStory o2 e2 story (processStory o1 e1 story fs0 ss es).fs ss es).genCalls
          = 0 ∧
      ∀ p ∈ (processStory o2 e2 story (processStory o1 e1 story fs0 ss es).fs ss es).log,
        p.2 = ShotStatus.skipped := by
  have hexists : ∀ s ∈ shotsInRange story ss es,
      ((processStory o1 e1 story fs0 ss es).fs s.id).isSome = true := by
    intro s hs
    exact processShots_complete_exists o1 e1 (shotsInRange story ss es) _ h s hs
  have hskip := processShots_all_skip o2 e2 (shotsInRange story ss es)
    { fs := (processStory o1 e1 story fs0 ss es).fs, log := [], genCalls := 0,
      haltedAt := none } hexists
  refine ⟨fun st s rest hex => by rw [processShots, if_pos hex], ?_, ?_⟩
  · rw [processStory, hskip]
  · rw [processStory, hskip]
    intro p hp
    simp only [List.nil_append, List.mem_map] at hp
    obtain ⟨s, hs, rfl⟩ := hp
    rfl

/-- Claim C2, witness: a two-shot story generated successfully, then re-run
over the resulting output directory against a service that would fail every
call — the second run makes zero generation calls. -/
theorem c2_idempotent_resume_witness :
    (processStory (fun _ _ => GenOutcome.genOk (2 * MIN_VALID_BYTES)) (fun _ => true)
        [⟨1, none⟩, ⟨2, none⟩] (fun _ => none) 1 none).haltedAt = none ∧
      (processStory (fun _ _ => GenOutcome.genRaise msgBoom) (fun _ => true)
        [⟨1, none⟩, ⟨2, none⟩]
        (processStory (fun _ _ => GenOutcome.genOk (2 * MIN_VALID_BYTES)) (fun _ => true)
          [⟨1, none⟩, ⟨2, none⟩] (fun _ => none) 1 none).fs 1 none).genCalls = 0 :=
  ⟨by decide,
    (c2_idempotent_resume (fun _ _ => GenOutcome.genOk (2 * MIN_VALID_BYTES))
      (fun _ _ => GenOutcome.genRaise msgBoom) (fun _ => true) (fun _ => true)
      [⟨1, none⟩, ⟨2, none⟩] (fun _ => none) 1 none (by decide)).2.1⟩

/-- Claim C6: a shot whose artifact is absent and whose every attempt fails
halts the run: the final state records `failed` for that shot only, counts
exactly the `MAX_RETRIES` generation calls of that shot, reports the shot's id
as the halt point, and the remaining shots are never attempted (the state is
returned before the rest of the list is processed). -/
theorem c6_chain_halt (outcomes : Int → Nat → GenOutcome) (extractOk : Int → Bool)
    (shot : Shot) (rest : List Shot) (st : RunState)
    (hnew : st.fs shot.id = none)
    (hfail : ∀ n, 1 ≤ n → n ≤ MAX_RETRIES → isFailure (outcomes shot.id n) = true) :
    processShots outcomes extractOk (shot :: rest) st =
      { st with
          log := st.log ++ [(shot.id, ShotStatus.failed)],
          genCalls := st.genCalls + MAX_RETRIES,
          haltedAt := some shot.id } := by
  have hloop := retryLoop_allFail (outcomes shot.id) hfail
  rw [processShots, if_neg (by simp [hnew]), if_neg (by simp [hloop.1]),
    hloop.2.1]

/-- Claim C6, witness: a two-shot run whose first shot always fails halts at
shot 1 after 3 calls, with shot 2 never attempted. -/
theorem c6_chain_halt_witness :
    processShots (fun _ _ => GenOutcome.genRaise msgBoom) (fun _ => true)
        [⟨1, none⟩, ⟨2, none⟩]
        { fs := fun _ => none, log := [], genCalls := 0, haltedAt := none } =
      { fs := fun _ => none, log := [(1, ShotStatus.failed)],
        genCalls := MAX_RETRIES, haltedAt := some 1 } :=
  c6_chain_halt (fun _ _ => GenOutcome.genRaise msgBoom) (fun _ => true)
    ⟨1, none⟩ [⟨2, none⟩]
    { fs := fun _ => none, log := [], genCalls := 0, haltedAt := none }
    rfl (fun _ _ _ => rfl)

/-- Claim C4: a shot whose declared mode is image-anchored is downgraded to
text-anchored whenever the predecessor artifact `{id - 1}.mp4` is absent or
frame extraction from it fails; the request sent to the generation client for
that shot then has the text-anchored shape, and the run is not aborted for
that reason (here the shot generates successfully and the run state simply
advances, with `haltedAt` untouched). -/
theorem c4_mode_downgrade (outcomes : Int → Nat → GenOutcome)
    (extractOk : Int → Bool) (shot : Shot) (st : RunState)
    (hdecl : resolveDeclaredMode shot = i2v)
    (hdown : st.fs (shot.id - 1) = none ∨ extractOk (shot.id - 1) = false)
    (hnew : st.fs shot.id = none)
    (hsucc : (retryLoop (outcomes shot.id)).success = true) :
    resolveMode st.fs extractOk shot = t2v ∧
      ∃ n, MIN_VALID_BYTES ≤ n ∧
        processShots outcomes extractOk [shot] st =
          { st with
              fs := fun i => if i = shot.id then some n else st.fs i,
              log := st.log ++ [(shot.id, ShotStatus.generated t2v n)],
              genCalls := st.genCalls + (retryLoop (outcomes shot.id)).genCalls } := by
  have hmode : resolveMode st.fs extractOk shot = t2v := by
    rw [resolveMode, if_pos hdecl]
    rcases hdown with hfs | hext
    · rw [if_neg (by simp [hfs])]
    · by_cases hex : (st.fs (shot.id - 1)).isSome = true
      · rw [if_pos hex, if_neg (by simp [hext])]
      · rw [if_neg hex]
  obtain ⟨n, hn, hge⟩ := retryLoop_success_file (outcomes shot.id) hsucc
  refine ⟨hmode, n, hge, ?_⟩
  rw [processShots, if_neg (by simp [hnew]), if_pos hsucc, processShots,
    hmode, hn]
  rfl

/-- Claim C4, witness: shot 2 (implicitly image-anchored) with no predecessor
artifact resolves to the text-anchored mode. -/
theorem c4_mode_downgrade_witness :
    resolveMode (fun _ => none) (fun _ => true) ⟨2, none⟩ = t2v :=
  (c4_mode_downgrade (fun _ _ => GenOutcome.genOk (2 * MIN_VALID_BYTES))
    (fun _ => true) ⟨2, none⟩
    { fs := fun _ => none, log := [], genCalls := 0, haltedAt := none }
    rfl (Or.inl rfl) rfl (by decide)).1

/-- Claim C7: continuity extraction decodes exactly one frame at timestamp
`max(0, duration - offset)`, and when `duration ≤ offset` the timestamp is
clamped to 0 (the extraction still succeeds with a frame request rather than
failing). -/
theorem c7_extract_frame (duration offset_from_end : Rat) :
    (extract_last_frame duration offset_from_end).frames = 1 ∧
      (extract_last_frame duration offset_from_end).timestamp =
        max 0 (duration - offset_from_end) ∧
      (duration ≤ offset_from_end →
        (extract_last_frame duration offset_from_end).timestamp = 0) := by
  refine ⟨rfl, rfl, fun h => ?_⟩
  show max 0 (duration - offset_from_end) = 0
  exact max_eq_left (sub_nonpos.mpr h)

/-- Claim C7, witness: a half-second clip is clamped to timestamp 0, an
eight-second clip is sampled at 7 s, both with exactly one decoded frame. -/
theorem c7_extract_frame_witness :
    (extract_last_frame (1 / 2) FRAME_OFFSET_SECONDS).timestamp = 0 ∧
      (extract_last_frame 8 FRAME_OFFSET_SECONDS).timestamp = 7 ∧
      (extract_last_frame 8 FRAME_OFFSET_SECONDS).frames = 1 := by
  refine ⟨(c7_extract_frame (1 / 2) FRAME_OFFSET_SECONDS).2.2
    (by norm_num [FRAME_OFFSET_SECONDS]), ?_,
    (c7_extract_frame 8 FRAME_OFFSET_SECONDS).1⟩
  rw [(c7_extract_frame 8 FRAME_OFFSET_SECONDS).2.1]
  norm_num [FRAME_OFFSET_SECONDS]

/-- Claim C8, counterexample: a full run from an empty output directory over
the story `[{id: 0}, {id: 1, mode: "i2v"}]` with `start_shot = 0` generates
shot 0 text-anchored, then generates shot 1 — a first-in-sequence shot with
id 1 — with the image-anchored request shape, because its explicit
`mode: "i2v"` declaration finds the artifact `0.mp4` on disk. -/
theorem c8_counterexample :
    (processStory (fun _ _ => GenOutcome.genOk (2 * MIN_VALID_BYTES)) (fun _ => true)
        [⟨0, none⟩, ⟨1, some i2v⟩] (fun _ => none) 0 none).log =
      [(0, ShotStatus.generated t2v (2 * MIN_VALID_BYTES)),
        (1, ShotStatus.generated i2v (2 * MIN_VALID_BYTES))] := by
  decide

/-- Claim C8 (amended): a shot with id 1 is generated with the image-anchored
request shape exactly when the story explicitly declares it `"i2v"`, an
artifact `0.mp4` exists on disk, and frame extraction from it succeeds; in
every other case — in particular whenever the mode is left implicit or no
predecessor artifact exists — shot 1's request is text-anchored. -/
theorem c8_first_shot_amended (fs : Int → Option Nat) (extractOk : Int → Bool)
    (shot : Shot) (h1 : shot.id = 1) :
    resolveMode fs extractOk shot = i2v ↔
      (shot.mode = some i2v ∧ (fs (shot.id - 1)).isSome = true ∧
        extractOk (shot.id - 1) = true) := by
  cases hm : shot.mode with
  | none =>
      have hd : resolveDeclaredMode shot = t2v := by
        rw [resolveDeclaredMode, hm]
        simp [h1]
      rw [resolveMode, if_neg (by rw [hd]; decide), hd]
      constructor
      · intro hcon
        exact absurd hcon (by decide)
      · rintro ⟨hcon, -, -⟩
        exact Option.noConfusion hcon
  | some m =>
      have hd : resolveDeclaredMode shot = m := by
        rw [resolveDeclaredMode, hm]
        rfl
      by_cases hmi : m = i2v
      · subst hmi
        rw [resolveMode, if_pos hd]
        by_cases hex : (fs (shot.id - 1)).isSome = true
        · rw [if_pos hex]
          by_cases hok : extractOk (shot.id - 1) = true
          · rw [if_pos hok]
            simp [hm, hex, hok]
          · rw [if_neg hok]
            constructor
            · intro hcon
              exact absurd hcon (by decide)
            · rintro ⟨-, -, hcon⟩
              exact absurd hcon hok
        · rw [if_neg hex]
          constructor
          · intro hcon
            exact absurd hcon (by decide)
          · rintro ⟨-, hcon, -⟩
            exact absurd hcon hex
      · rw [resolveMode, if_neg (by rw [hd]; exact hmi), hd]
        constructor
        · intro hcon
          exact absurd hcon hmi
        · rintro ⟨hcon, -, -⟩
          exact absurd (Option.some_inj.mp hcon) hmi

/-- Claim C8 (amended), witness: with an explicit `"i2v"` declaration and an
existing `0.mp4`, shot 1 resolves to the image-anchored mode. -/
theorem c8_first_shot_amended_witness :
    resolveMode (fun i => if i = 0 then some MIN_VALID_BYTES else none)
        (fun _ => true) ⟨1, some i2v⟩ = i2v :=
  (c8_first_shot_amended (fun i => if i = 0 then some MIN_VALID_BYTES else none)
    (fun _ => true) ⟨1, some i2v⟩ rfl).mpr ⟨rfl, by decide, rfl⟩

/-- Claim C9: a shot whose story entry has no `mode` field resolves its
declared mode to `"t2v"` when its id is 1 and to `"i2v"` otherwise, before any
downgrade logic is applied. -/
theorem c9_default_mode (shot : Shot) (h : shot.mode = none) :
    (shot.id = 1 → resolveDeclaredMode shot = t2v) ∧
      (shot.id ≠ 1 → resolveDeclaredMode shot = i2v) := by
  constructor <;> intro h1 <;> rw [resolveDeclaredMode, h] <;> simp [h1]

/-- Claim C9, witness at shots 1 and 2 with no `mode` field. -/
theorem c9_default_mode_witness :
    resolveDeclaredMode ⟨1, none⟩ = t2v ∧ resolveDeclaredMode ⟨2, none⟩ = i2v :=
  ⟨(c9_default_mode ⟨1, none⟩ rfl).1 rfl, (c9_default_mode ⟨2, none⟩ rfl).2 (by decide)⟩
